import Mathlib

/-!
Shallow embedding of `investment_alert.py`.

External effects (network fetches, file reads, message sends) are modelled by
explicit inputs: a fetch that may raise is an `Except String α` (the `error`
case models the raised exception that the surrounding `try/except` catches),
a possibly-missing file is an `Option String`, and the Telegram notifier
returns the list of observable events it performs. Python floats are
modelled by `ℚ`; Python ints by `ℤ`; Python `None` by `Option`.
-/

namespace InvestmentAlert

/-- Snapshot returned by `get_stock_price` on success: the dict
`{"ticker": ..., "today_close": ..., "yesterday_close": ..., "change_pct": ...}`. -/
structure StockData where
  ticker : String
  today_close : ℚ
  yesterday_close : ℚ
  change_pct : ℚ
  deriving Repr, DecidableEq

/-- Embedding of `get_stock_price` (lines 32-44). The network interaction
`yf.Ticker(ticker).history(period="2d")` is modelled by the `fetch` input:
`.error` is a raised exception (caught by the broad `except`, which logs and
returns `None`), `.ok hist` is the list of closing prices, oldest first, so
`hist[Close][-1]` is the last element and `hist[Close][-2]` the one
before it. A zero `yesterday_close` raises `ZeroDivisionError` in Python,
also caught by the `except`, hence `none` in that case. -/
def get_stock_price (ticker : String) (fetch : Except String (List ℚ)) :
    Option StockData :=
  match fetch with
  | .error _ => none
  | .ok hist =>
    match hist.reverse with
    | today_close :: yesterday_close :: _ =>
      if yesterday_close = 0 then none
      else
        some { ticker := ticker.toUpper
               today_close := today_close
               yesterday_close := yesterday_close
               change_pct := (today_close - yesterday_close) / yesterday_close * 100 }
    | _ => none

/-- Cell of a scraped HTML table: its text content, and the `href` of the
first `<a>` tag inside it when one is present. -/
structure Cell where
  text : String
  href : Option String
  deriving Repr, DecidableEq

/-- Row of a scraped HTML table: the list of its `<td>` cells. -/
abbrev Row := List Cell

/-- Scraped HTML table: the list returned by `soup.find_all(tr)`. -/
abbrev Table := List Row

/-- Record appended by `get_recent_13f_filings`:
`{"date": ..., "company": ..., "link": ...}`. -/
structure Filing where
  date : String
  company : String
  link : String
  deriving Repr, DecidableEq

/-- Record appended by `get_recent_politician_trades`:
`{"date": ..., "filer": ..., "link": ...}`. -/
structure Trade where
  date : String
  filer : String
  link : String
  deriving Repr, DecidableEq

/-- Embedding of the loop body of `get_recent_13f_filings` (lines 54-61):
a row with fewer than 5 columns is skipped (`continue`); otherwise
`cols[3].text.strip()` is the date, `cols[1].text.strip()` the company, and
the link is the site origin concatenated with the href of the `<a>` tag in
`cols[1]` when one is present, else the empty string. -/
def parse13fRow (row : Row) : Option Filing :=
  match row with
  | _ :: c1 :: _ :: c3 :: _ :: _ =>
    some { date := c3.text.trim
           company := c1.text.trim
           link := match c1.href with
                   | some h => "https://www.sec.gov" ++ h
                   | none => "" }
  | _ => none

/-- Embedding of the loop body of `get_recent_politician_trades`
(lines 88-95), identical to `parse13fRow` but producing a `Trade` whose
second field is named `filer`. -/
def parseForm4Row (row : Row) : Option Trade :=
  match row with
  | _ :: c1 :: _ :: c3 :: _ :: _ =>
    some { date := c3.text.trim
           filer := c1.text.trim
           link := match c1.href with
                   | some h => "https://www.sec.gov" ++ h
                   | none => "" }
  | _ => none

/-- Embedding of `get_recent_13f_filings` (lines 47-65). The HTTP GET and
HTML parse are modelled by `fetch`: `.error` is any raised exception (caught,
logged, empty list returned), `.ok table` the parsed `soup.find_all(tr)`.
`[1:]` skips the header row. -/
def get_recent_13f_filings (fetch : Except String Table) : List Filing :=
  match fetch with
  | .error _ => []
  | .ok table => (table.drop 1).filterMap parse13fRow

/-- Embedding of `get_recent_politician_trades` (lines 81-99), same
structure as `get_recent_13f_filings` over the Form 4 listing. -/
def get_recent_politician_trades (fetch : Except String Table) : List Trade :=
  match fetch with
  | .error _ => []
  | .ok table => (table.drop 1).filterMap parseForm4Row

/-- Entry of a parsed syndication feed, as accessed by
`get_google_news_rss`: `entry.title`, `entry.link`, and the optional
`entry.published` attribute. -/
structure FeedEntry where
  title : String
  link : String
  published : Option String
  deriving Repr, DecidableEq

/-- News record `{"title": ..., "link": ..., "published": ...}`. -/
structure NewsItem where
  title : String
  link : String
  published : String
  deriving Repr, DecidableEq

/-- Embedding of `get_google_news_rss` (lines 68-78). The feed fetch/parse
is modelled by `fetch`; `feed.entries[:max_items]` keeps at most `max_items`
entries in feed order; `getattr(entry, published, default empty)` defaults a missing
published field to the empty string. The `query` parameter only feeds the
request URL. -/
def get_google_news_rss (query : String) (max_items : ℕ)
    (fetch : Except String (List FeedEntry)) : List NewsItem :=
  match fetch with
  | .error _ => []
  | .ok entries =>
    (entries.take max_items).map fun e =>
      { title := e.title, link := e.link, published := e.published.getD "" }

/-- Embedding of `score_opportunity` (lines 102-112). `stock_data` is either
`None` or the snapshot dict (a non-empty dict is truthy);
`stock_data.get("change_pct", 0)` reads its `change_pct` field. Counts are
Python ints, so `ℤ`. Each `if` adds its term to the running score. -/
def score_opportunity (stock_data : Option StockData)
    (filings_count news_count politician_trades_count : ℤ) : ℤ :=
  (match stock_data with
   | some sd => if 5 < |sd.change_pct| then (3 : ℤ) else 0
   | none => 0)
  + (if 0 < filings_count then filings_count * 2 else 0)
  + (if 0 < news_count then news_count else 0)
  + (if 0 < politician_trades_count then politician_trades_count * 2 else 0)

/-- Embedding of `load_tickers` (lines 115-122). `file` is `none` when
opening the file raises (missing file: the `except` logs and returns the
default list), `some ls` when the read succeeds with `f.readlines()`
returning the list of lines `ls`. The comprehension keeps lines that are
non-blank after `strip()` and maps them to `strip().upper()`;
`lines[:limit] if limit else lines` truncates only when `limit` is truthy,
i.e. not `None` and not `0`. -/
def load_tickers (file : Option (List String)) (limit : Option ℕ) :
    List String :=
  match file with
  | none => ["MSFT", "AAPL", "NVDA"]
  | some ls =>
    let lines := (ls.filter fun l => l.trim ≠ "").map fun l => l.trim.toUpper
    match limit with
    | some n => if n ≠ 0 then lines.take n else lines
    | none => lines

/-- Observable event of the notifier: a console print (line 23), an
attempted `bot.send_message` call (line 27), or the per-recipient failure
log (line 29). -/
inductive TgEvent where
  | printed (msg : String)
  | attempt (chat_id : String) (msg : String)
  | logFail (chat_id : String) (msg : String)
  deriving Repr, DecidableEq

/-- Embedding of `send_telegram_message` (lines 21-29). `bot` models the
module-level `bot` (set iff both token and chat ids are configured);
`chat_ids` models `CHAT_IDS`; `send_fails cid = true` models
`bot.send_message(chat_id=cid, ...)` raising for that recipient, in which
case the exception is caught and logged and the loop continues. The result
is the trace of observable events. -/
def send_telegram_message (bot : Option Unit) (chat_ids : List String)
    (send_fails : String → Bool) (message : String) : List TgEvent :=
  match bot with
  | none => [TgEvent.printed ("Telegram not configured: " ++ message)]
  | some _ =>
    chat_ids.flatMap fun cid =>
      TgEvent.attempt cid message ::
        (if send_fails cid then [TgEvent.logFail cid message] else [])

/-- Result record of `run_and_notify` (line 151): `{"ticker": ..., "score": ...}`. -/
structure RunResult where
  ticker : String
  score : ℤ
  deriving Repr, DecidableEq

/-- Embedding of `run_and_notify` (lines 125-151). The four fetches are
modelled by their `Except` inputs; the message is built per `LANG` ("he" or
anything else); `fmt_price` and `fmt_pct2` model the Python float-to-string
conversion inside the f-string (`str` and the `:.2f` format). Returns the
`{ticker, score}` record together with the notifier event trace. -/
def run_and_notify (ticker : String)
    (price_fetch : Except String (List ℚ))
    (filings_fetch : Except String Table)
    (news_fetch : Except String (List FeedEntry))
    (trades_fetch : Except String Table)
    (lang : String) (bot : Option Unit) (chat_ids : List String)
    (send_fails : String → Bool)
    (fmt_price fmt_pct2 : ℚ → String) : RunResult × List TgEvent :=
  let stock_data := get_stock_price ticker price_fetch
  let filings := get_recent_13f_filings filings_fetch
  let news := get_google_news_rss ticker 5 news_fetch
  let politician_trades := get_recent_politician_trades trades_fetch
  let score := score_opportunity stock_data (filings.length : ℤ)
    (news.length : ℤ) (politician_trades.length : ℤ)
  let message :=
    if lang = "he" then
      "🔔 הזדמנות: " ++ ticker ++ "\n"
      ++ (match stock_data with
          | some sd =>
            "מחיר: " ++ fmt_price sd.today_close ++ " | שינוי: "
              ++ fmt_pct2 sd.change_pct ++ "%\n"
          | none => "אין מידע מחיר\n")
      ++ "13F: " ++ toString filings.length ++ " | חדשות: "
      ++ toString news.length ++ " | רכישות פוליטיקאים: "
      ++ toString politician_trades.length ++ "\n"
      ++ "ניקוד: " ++ toString score
    else
      "🔔 Opportunity: " ++ ticker ++ "\n"
      ++ (match stock_data with
          | some sd =>
            "Price: " ++ fmt_price sd.today_close ++ " | Change: "
              ++ fmt_pct2 sd.change_pct ++ "%\n"
          | none => "No price data\n")
      ++ "13F: " ++ toString filings.length ++ " | News: "
      ++ toString news.length ++ " | Politician trades: "
      ++ toString politician_trades.length ++ "\n"
      ++ "Score: " ++ toString score
  let events := send_telegram_message bot chat_ids send_fails message
  ({ ticker := ticker, score := score }, events)

/-- Chat ids of the attempted remote send calls in an event trace, in
order. -/
def attemptedIds (events : List TgEvent) : List String :=
  events.filterMap fun e =>
    match e with
    | TgEvent.attempt cid _ => some cid
    | _ => none

/-- Placeholder cell used only to state positional indexing; rows it is
read from are guaranteed to have at least 5 columns, so it is never the
value actually read. -/
def emptyCell : Cell := { text := "", href := none }

/-- Restatement of the spec wording for the 13F scraper, to be compared
with `get_recent_13f_filings`: skip the header row; keep exactly the rows
with at least 5 columns; from each kept row take the date from the text of
column index 3, the company from the text of column index 1, and the link
by putting the site origin before the hyperlink found in that cell when one
is present, else the empty string. -/
def filingsFromSpec (table : Table) : List Filing :=
  ((table.drop 1).filter fun r => 5 ≤ r.length).map fun r =>
    { date := (r.getD 3 emptyCell).text.trim
      company := (r.getD 1 emptyCell).text.trim
      link := match (r.getD 1 emptyCell).href with
              | some h => "https://www.sec.gov" ++ h
              | none => "" }

/-- Restatement of the spec wording for the Form 4 scraper, to be compared
with `get_recent_politician_trades`; same shape as `filingsFromSpec` with
the name field called `filer`. -/
def tradesFromSpec (table : Table) : List Trade :=
  ((table.drop 1).filter fun r => 5 ≤ r.length).map fun r =>
    { date := (r.getD 3 emptyCell).text.trim
      filer := (r.getD 1 emptyCell).text.trim
      link := match (r.getD 1 emptyCell).href with
              | some h => "https://www.sec.gov" ++ h
              | none => "" }

/-- Claim C1: for every stock_data (absent or carrying a change_pct) and all
non-negative counts, `score_opportunity` returns exactly
3·(1 if stock_data is present with |change_pct| > 5 else 0) + 2·filings +
news + 2·trades; in particular filings=3, news=0, trades=1 with no price
data gives 8, and change_pct = -7.5, filings=0, news=2, trades=0 gives 5. -/
theorem score_opportunity_formula :
    (∀ (stock_data : Option StockData) (f n t : ℤ),
        0 ≤ f → 0 ≤ n → 0 ≤ t →
        score_opportunity stock_data f n t =
          3 * (match stock_data with
               | some sd => if 5 < |sd.change_pct| then (1 : ℤ) else 0
               | none => 0) + 2 * f + n + 2 * t) ∧
    score_opportunity none 3 0 1 = 8 ∧
    score_opportunity (some ⟨"X", 0, 0, -(15 / 2 : ℚ)⟩) 0 2 0 = 5 := by
  refine ⟨?_, by decide, ?_⟩
  · intro sd f n t hf hn ht
    cases sd <;> simp only [score_opportunity] <;> split_ifs <;> omega
  · have h : (5 : ℚ) < |(-(15 / 2 : ℚ))| := by
      rw [abs_neg, abs_of_nonneg (by norm_num : (0 : ℚ) ≤ 15 / 2)]
      norm_num
    simp only [score_opportunity, if_pos h]
    norm_num

/-- Witness for `score_opportunity_formula` at concrete inputs. -/
theorem score_opportunity_formula_witness :
    score_opportunity none 4 5 6 = 3 * 0 + 2 * 4 + 5 + 2 * 6 :=
  score_opportunity_formula.1 none 4 5 6 (by decide) (by decide) (by decide)

/-- Claim C8: `score_opportunity` is monotone non-decreasing in each of the
three count inputs, and the score with |change_pct| > 5 is never less than
the score with the same counts and |change_pct| ≤ 5 or absent price
data. -/
theorem score_opportunity_monotone :
    (∀ (sd : Option StockData) (f f' n t : ℤ), f ≤ f' →
        score_opportunity sd f n t ≤ score_opportunity sd f' n t) ∧
    (∀ (sd : Option StockData) (f n n' t : ℤ), n ≤ n' →
        score_opportunity sd f n t ≤ score_opportunity sd f n' t) ∧
    (∀ (sd : Option StockData) (f n t t' : ℤ), t ≤ t' →
        score_opportunity sd f n t ≤ score_opportunity sd f n t') ∧
    (∀ (lo : Option StockData) (hi : StockData) (f n t : ℤ),
        (∀ s, lo = some s → |s.change_pct| ≤ 5) → 5 < |hi.change_pct| →
        score_opportunity lo f n t ≤ score_opportunity (some hi) f n t) := by
  refine ⟨?_, ?_, ?_, ?_⟩
  · intro sd f f' n t h
    cases sd <;> simp only [score_opportunity] <;> split_ifs <;> omega
  · intro sd f n n' t h
    cases sd <;> simp only [score_opportunity] <;> split_ifs <;> omega
  · intro sd f n t t' h
    cases sd <;> simp only [score_opportunity] <;> split_ifs <;> omega
  · intro lo hi f n t _hlo hhi
    cases lo with
    | none => simp only [score_opportunity]; split_ifs <;> omega
    | some s =>
      simp only [score_opportunity]
      split_ifs <;> omega

/-- Witness for `score_opportunity_monotone` at concrete inputs. -/
theorem score_opportunity_monotone_witness :
    score_opportunity none 1 0 0 ≤ score_opportunity none 2 0 0 ∧
    score_opportunity none 0 1 0 ≤ score_opportunity none 0 2 0 ∧
    score_opportunity none 0 0 1 ≤ score_opportunity none 0 0 2 ∧
    score_opportunity none 1 1 1 ≤
      score_opportunity (some ⟨"X", 0, 0, 6⟩) 1 1 1 :=
  ⟨score_opportunity_monotone.1 none 1 2 0 0 (by decide),
   score_opportunity_monotone.2.1 none 0 1 2 0 (by decide),
   score_opportunity_monotone.2.2.1 none 0 0 1 2 (by decide),
   score_opportunity_monotone.2.2.2 none ⟨"X", 0, 0, 6⟩ 1 1 1
     (fun s h => by cases h)
     (by rw [abs_of_nonneg (by norm_num : (0 : ℚ) ≤ 6)]; norm_num)⟩

/-- Claim C9: for every input, including negative count arguments,
`score_opportunity` returns a non-negative integer. -/
theorem score_opportunity_nonneg :
    ∀ (sd : Option StockData) (f n t : ℤ), 0 ≤ score_opportunity sd f n t := by
  intro sd f n t
  cases sd <;> simp only [score_opportunity] <;> split_ifs <;> omega

/-- Claim C4, counterexample: a present but empty ticker file yields the
empty list, not the default three-symbol list. -/
theorem load_tickers_empty_file_counterexample :
    load_tickers (some []) none = [] ∧
    load_tickers (some []) none ≠ ["MSFT", "AAPL", "NVDA"] := by
  exact ⟨rfl, by decide⟩

/-- Claim C4, amended: `load_tickers` returns the fixed default list
["MSFT", "AAPL", "NVDA"] when reading the ticker file raises (file
missing); a present but empty file instead yields the empty list. -/
theorem load_tickers_default_on_read_failure :
    (∀ limit, load_tickers none limit = ["MSFT", "AAPL", "NVDA"]) ∧
    load_tickers (some []) none = [] :=
  ⟨fun _ => rfl, rfl⟩

/-- Claim C10: limit = 0 is falsy, so `load_tickers` with limit 0 does not
truncate: it behaves exactly like limit = None and returns the full list of
non-blank, stripped, uppercased lines. -/
theorem load_tickers_zero_limit :
    ∀ ls : List String,
      load_tickers (some ls) (some 0) = load_tickers (some ls) none ∧
      load_tickers (some ls) (some 0) =
        (ls.filter fun l => l.trim ≠ "").map fun l => l.trim.toUpper :=
  fun _ => ⟨rfl, rfl⟩

/-- Claim C5: with the bot unset (no credential or no recipients),
`send_telegram_message` attempts no remote send for any message and instead
prints the message to the console, returning normally. -/
theorem send_telegram_message_unconfigured :
    ∀ (chat_ids : List String) (send_fails : String → Bool) (message : String),
      send_telegram_message none chat_ids send_fails message =
        [TgEvent.printed ("Telegram not configured: " ++ message)] ∧
      attemptedIds (send_telegram_message none chat_ids send_fails message) = [] :=
  fun _ _ _ => ⟨rfl, rfl⟩

/-- Claim C6: with the bot configured, `send_telegram_message` attempts a
send to every configured recipient exactly once, in list order, whatever
the per-recipient failures; a failing recipient gets a failure log entry
and the remaining recipients are still attempted; the function returns a
trace for every input (no failure propagates). -/
theorem send_telegram_message_configured :
    ∀ (chat_ids : List String) (send_fails : String → Bool) (message : String),
      attemptedIds (send_telegram_message (some ()) chat_ids send_fails message)
        = chat_ids ∧
      (∀ cid, cid ∈ chat_ids → send_fails cid = true →
        TgEvent.logFail cid message ∈
          send_telegram_message (some ()) chat_ids send_fails message) := by
  intro chat_ids send_fails message
  constructor
  · induction chat_ids with
    | nil => rfl
    | cons c cs ih =>
      simp only [send_telegram_message, List.flatMap_cons, attemptedIds,
        List.filterMap_append] at ih ⊢
      cases h : send_fails c <;> simp [h, ih]
  · intro cid hmem hfail
    simp only [send_telegram_message, List.mem_flatMap]
    exact ⟨cid, hmem, by simp [hfail]⟩

/-- Witness for `send_telegram_message_configured` at concrete inputs. -/
theorem send_telegram_message_configured_witness :
    attemptedIds
        (send_telegram_message (some ()) ["a", "b"] (fun _ => true) "hi")
      = ["a", "b"] ∧
    TgEvent.logFail "a" "hi" ∈
      send_telegram_message (some ()) ["a", "b"] (fun _ => true) "hi" :=
  ⟨(send_telegram_message_configured ["a", "b"] (fun _ => true) "hi").1,
   (send_telegram_message_configured ["a", "b"] (fun _ => true) "hi").2 "a"
     (by simp) rfl⟩

/-- Claim C2: when `get_stock_price` succeeds, the snapshot satisfies
change_pct = (today_close − yesterday_close) / yesterday_close × 100, and
any history with fewer than 2 closes yields `none`. -/
theorem get_stock_price_spec :
    ∀ (ticker : String) (hist : List ℚ),
      (∀ snap, get_stock_price ticker (.ok hist) = some snap →
        snap.change_pct =
          (snap.today_close - snap.yesterday_close) / snap.yesterday_close
            * 100) ∧
      (hist.length < 2 → get_stock_price ticker (.ok hist) = none) := by
  intro ticker hist
  constructor
  · intro snap h
    cases hr : hist.reverse with
    | nil => simp [get_stock_price, hr] at h
    | cons t rest =>
      cases rest with
      | nil => simp [get_stock_price, hr] at h
      | cons y rest' =>
        by_cases hy : y = 0
        · simp [get_stock_price, hr, hy] at h
        · simp only [get_stock_price, hr, if_neg hy] at h
          cases h
          rfl
  · intro hlen
    cases hr : hist.reverse with
    | nil => simp [get_stock_price, hr]
    | cons t rest =>
      cases rest with
      | nil => simp [get_stock_price, hr]
      | cons y rest' =>
        exfalso
        have hl := congrArg List.length hr
        simp only [List.length_reverse, List.length_cons] at hl
        omega

/-- Witness for `get_stock_price_spec` at concrete inputs: a one-element
history yields `none`, and the successful snapshot for closes [8, 10] has
change_pct 25 = (10 − 8) / 8 × 100. -/
theorem get_stock_price_spec_witness :
    get_stock_price "aapl" (.ok [(8 : ℚ)]) = none ∧
    (25 : ℚ) = ((10 : ℚ) - 8) / 8 * 100 :=
  ⟨(get_stock_price_spec "aapl" [8]).2 (by decide),
   (get_stock_price_spec "aapl" [8, 10]).1 ⟨"aapl".toUpper, 10, 8, 25⟩ (by
     have : ((10 : ℚ) - 8) / 8 * 100 = 25 := by norm_num
     simp [get_stock_price, this])⟩

/-- Helper: a `filterMap` whose function is `some ∘ g` exactly on the rows
satisfying `p` equals mapping `g` over the `p`-filtered list. -/
lemma filterMap_eq_map_filter {α β : Type} (f : α → Option β) (p : α → Bool)
    (g : α → β) (hf : ∀ x, f x = if p x then some (g x) else none) :
    ∀ l : List α, l.filterMap f = (l.filter p).map g := by
  intro l
  induction l with
  | nil => rfl
  | cons a l ih =>
    rw [List.filterMap_cons, List.filter_cons, hf a]
    cases hp : p a <;> simp [ih]

/-- Helper: the 13F row parser keeps exactly the rows with at least 5
columns and reads columns 1 and 3 positionally. -/
lemma parse13fRow_eq (r : Row) :
    parse13fRow r =
      if 5 ≤ r.length then
        some { date := (r.getD 3 emptyCell).text.trim
               company := (r.getD 1 emptyCell).text.trim
               link := match (r.getD 1 emptyCell).href with
                       | some h => "https://www.sec.gov" ++ h
                       | none => "" }
      else none := by
  match r with
  | [] => rfl
  | [c0] => rfl
  | [c0, c1] => rfl
  | [c0, c1, c2] => rfl
  | [c0, c1, c2, c3] => rfl
  | c0 :: c1 :: c2 :: c3 :: c4 :: rest =>
    rw [if_pos (by simp only [List.length_cons]; omega)]
    rfl

/-- Helper: the Form 4 row parser keeps exactly the rows with at least 5
columns and reads columns 1 and 3 positionally. -/
lemma parseForm4Row_eq (r : Row) :
    parseForm4Row r =
      if 5 ≤ r.length then
        some { date := (r.getD 3 emptyCell).text.trim
               filer := (r.getD 1 emptyCell).text.trim
               link := match (r.getD 1 emptyCell).href with
                       | some h => "https://www.sec.gov" ++ h
                       | none => "" }
      else none := by
  match r with
  | [] => rfl
  | [c0] => rfl
  | [c0, c1] => rfl
  | [c0, c1, c2] => rfl
  | [c0, c1, c2, c3] => rfl
  | c0 :: c1 :: c2 :: c3 :: c4 :: rest =>
    rw [if_pos (by simp only [List.length_cons]; omega)]
    rfl

/-- Claim C3: on any successfully fetched HTML table, both scrapers skip
the header row, keep exactly the rows with at least 5 columns, and read
the date from column index 3, the name/filer from column index 1 and the
link from the hyperlink of that cell (site origin put in front) or the
empty string, matching the spec-worded `filingsFromSpec` and
`tradesFromSpec`; short rows are dropped without failing. -/
theorem scrapers_match_spec :
    ∀ table : Table,
      get_recent_13f_filings (.ok table) = filingsFromSpec table ∧
      get_recent_politician_trades (.ok table) = tradesFromSpec table := by
  intro table
  constructor
  · exact filterMap_eq_map_filter parse13fRow _ _
      (fun r => by rw [parse13fRow_eq]; simp) (table.drop 1)
  · exact filterMap_eq_map_filter parseForm4Row _ _
      (fun r => by rw [parseForm4Row_eq]; simp) (table.drop 1)

/-- Claim C7: every fetcher fails soft — an exception inside
`get_stock_price`, `get_recent_13f_filings`, `get_google_news_rss` or
`get_recent_politician_trades` yields the safe default (`none` for the
price fetcher, `[]` for the listers) — and `run_and_notify` always
completes, returning the {ticker, score} record for its ticker with the
score computed from the four (possibly degraded) results. -/
theorem fetchers_fail_soft :
    (∀ (ticker e : String), get_stock_price ticker (.error e) = none) ∧
    (∀ e : String, get_recent_13f_filings (.error e) = []) ∧
    (∀ (q : String) (m : ℕ) (e : String),
      get_google_news_rss q m (.error e) = []) ∧
    (∀ e : String, get_recent_politician_trades (.error e) = []) ∧
    (∀ (ticker : String) (pf : Except String (List ℚ))
       (ff : Except String Table) (nf : Except String (List FeedEntry))
       (tf : Except String Table) (lang : String) (bot : Option Unit)
       (ids : List String) (sf : String → Bool) (f1 f2 : ℚ → String),
      (run_and_notify ticker pf ff nf tf lang bot ids sf f1 f2).1 =
        { ticker := ticker
          score := score_opportunity (get_stock_price ticker pf)
            ((get_recent_13f_filings ff).length : ℤ)
            ((get_google_news_rss ticker 5 nf).length : ℤ)
            ((get_recent_politician_trades tf).length : ℤ) }) :=
  ⟨fun _ _ => rfl, fun _ => rfl, fun _ _ _ => rfl, fun _ => rfl,
   fun _ _ _ _ _ _ _ _ _ _ _ => rfl⟩

end InvestmentAlert
